import Mathlib

/-!
Verification development for the Optiwiz Header Maker translation core
(`src/app.py`).  The Python functions `format_color_hex`, `has_border`,
`get_border_color`, `get_merged_range_obj`, `build_yaml_string` and
`generate_yaml_from_file` are shallowly embedded as executable Lean
functions over an explicit model of the decoded spreadsheet (the openpyxl
grid-of-cells abstraction).  Machine floats do not occur in the translated
fragment; spreadsheet numbers are modelled as integers.
-/

namespace Optiwiz

/-- A decoded cell value: text, number, or boolean.  An absent value
(Python `None`) is `Option.none` at the use site. -/
inductive CellValue where
  | text (s : String)
  | num (n : Int)
  | bool (b : Bool)
deriving DecidableEq, Repr

/-- ASCII whitespace, the characters Python's `str.strip()` removes from
the text values that occur here. -/
def isSpaceChar (ch : Char) : Bool :=
  ch == ' ' || ch == '\t' || ch == '\n' || ch == '\r' || ch == '\x0b' || ch == '\x0c'

/-- Python `str.strip()`: drop leading and trailing whitespace. -/
def pyStrip (s : String) : String :=
  String.mk (((s.data.dropWhile isSpaceChar).reverse.dropWhile isSpaceChar).reverse)

/-- Lower-case one ASCII character, as Python `str.lower()` does on the
ASCII font names and colour codes occurring here. -/
def lowerChar (ch : Char) : Char :=
  if 'A' ≤ ch && ch ≤ 'Z' then Char.ofNat (ch.toNat + 32) else ch

/-- Python `str.lower()` (charwise, ASCII). -/
def pyLower (s : String) : String := String.mk (s.data.map lowerChar)

/-- Upper-case one ASCII character, as Python `str.upper()` does on the
hex colour codes occurring here. -/
def upperChar (ch : Char) : Char :=
  if 'a' ≤ ch && ch ≤ 'z' then Char.ofNat (ch.toNat - 32) else ch

/-- Python `str.upper()` (charwise, ASCII). -/
def pyUpper (s : String) : String := String.mk (s.data.map upperChar)

/-- Python truthiness of a cell value, as consulted by `if cell_below.value:`
(app.py line 144): empty text, zero and `False` are falsy. -/
def CellValue.truthy : CellValue → Bool
  | .text s => s != ""
  | .num n => n != 0
  | .bool b => b

/-- Python `str(value)` on a cell value (app.py lines 140, 145, 147). -/
def pyStr : CellValue → String
  | .text s => s
  | .num n => toString n
  | .bool b => if b then "True" else "False"

/-- An openpyxl colour object: its `type` field (for example `"rgb"` or
`"theme"`) and its `rgb` payload (an ARGB hex string when present). -/
structure Color where
  ctype : String
  rgb : Option String
deriving DecidableEq, Repr

/-- Font snapshot of a cell (`cell.font`). -/
structure Font where
  bold : Bool
  name : Option String
  size : Option Int
  color : Option Color
deriving DecidableEq, Repr

/-- One side of a cell border (`cell.border.left` etc.): an optional border
style string and an optional colour. -/
structure Side where
  style : Option String
  color : Option Color
deriving DecidableEq, Repr

/-- Border snapshot of a cell (`cell.border`). -/
structure Border where
  left : Side
  right : Side
  top : Side
  bottom : Side
deriving DecidableEq, Repr

/-- Fill snapshot of a cell (`cell.fill`). -/
structure Fill where
  fill_type : Option String
  start_color : Color
deriving DecidableEq, Repr

/-- Alignment snapshot of a cell (`cell.alignment`). -/
structure Alignment where
  horizontal : Option String
  vertical : Option String
deriving DecidableEq, Repr

/-- A decoded cell as consumed by the translation core: value plus style
snapshot; `has_style` is openpyxl's flag that any style is attached. -/
structure Cell where
  value : Option CellValue
  has_style : Bool
  font : Font
  fill : Fill
  alignment : Alignment
  border : Border
deriving DecidableEq, Repr

/-- A merged range: inclusive rectangular span, anchored at
(`min_row`, `min_col`).  Rows and columns are 1-based as in openpyxl. -/
structure MergedRange where
  min_row : Nat
  min_col : Nat
  max_row : Nat
  max_col : Nat
deriving DecidableEq, Repr

/-- Geometric membership test used by `cell.coordinate in merged_cell_range`
(app.py line 30). -/
def MergedRange.containsCell (m : MergedRange) (r c : Nat) : Bool :=
  decide (m.min_row ≤ r) && decide (r ≤ m.max_row)
    && decide (m.min_col ≤ c) && decide (c ≤ m.max_col)

/-- The decoded sheet: the grid of cells (row-major, 1-based coordinates)
and the merged ranges. -/
structure Sheet where
  rows : List (List Cell)
  merged : List MergedRange
deriving DecidableEq, Repr

/-- A border side with nothing set. -/
def noSide : Side := { style := none, color := none }

/-- The cell openpyxl materialises for a coordinate that holds no data:
absent value and no style. -/
def emptyCell : Cell :=
  { value := none
    has_style := false
    font := { bold := false, name := none, size := none, color := none }
    fill := { fill_type := none, start_color := { ctype := "none", rgb := none } }
    alignment := { horizontal := none, vertical := none }
    border := { left := noSide, right := noSide, top := noSide, bottom := noSide } }

/-- Total cell lookup (`sheet.cell(row=r, column=c)` and `iter_rows`
padding): coordinates outside the stored grid yield the empty cell. -/
def Sheet.cellAt (s : Sheet) (r c : Nat) : Cell :=
  (((s.rows.get? (r - 1)).bind (fun row => row.get? (c - 1))).getD emptyCell)

/-- Bijective base-26 digits, structurally recursive on a fuel argument
that dominates the recursion depth. -/
def colLetterAux : Nat → Nat → String
  | _, 0 => ""
  | 0, _ + 1 => ""
  | fuel + 1, n + 1 => colLetterAux fuel (n / 26) ++ String.singleton (Char.ofNat (65 + n % 26))

/-- Bijective base-26 column letters, as in openpyxl's `get_column_letter`:
1 ↦ "A", 26 ↦ "Z", 27 ↦ "AA".  The fuel `n` covers the recursion depth,
since the quotient shrinks at every step. -/
def colLetter (n : Nat) : String := colLetterAux n n

/-- The openpyxl coordinate string of a (row, column) pair, e.g. "B2". -/
def coordStr (r c : Nat) : String := colLetter c ++ toString r

/-- The `coord` string of a merged range, e.g. "A1:C1". -/
def MergedRange.coordString (m : MergedRange) : String :=
  coordStr m.min_row m.min_col ++ ":" ++ coordStr m.max_row m.max_col

/-- `get_merged_range_obj` (app.py lines 24-32): the first merged range
containing the cell's coordinate, if any. -/
def get_merged_range_obj (s : Sheet) (r c : Nat) : Option MergedRange :=
  s.merged.find? (fun m => m.containsCell r c)

/-- `format_color_hex` (app.py lines 34-38): converts an 8-character ARGB
hex string to "#RRGGBB" by dropping the alpha pair; anything else
(including Python `None`) yields `none`. -/
def format_color_hex : Option String → Option String
  | some s => if s.length == 8 then some ("#" ++ s.drop 2) else none
  | none => none

/-- Truthiness of a border side's `style` attribute (`None` and the empty
string are falsy). -/
def sideSet (s : Side) : Bool := s.style.getD "" != ""

/-- `has_border` (app.py lines 40-43): some side has a border style. -/
def has_border (cell : Cell) : Bool :=
  sideSet cell.border.left || sideSet cell.border.right
    || sideSet cell.border.top || sideSet cell.border.bottom

/-- `get_border_color` (app.py lines 45-53): scan left, right, top, bottom
and return the first direct-RGB colour that converts and is not black. -/
def get_border_color (cell : Cell) : Option String :=
  [cell.border.left, cell.border.right, cell.border.top, cell.border.bottom].findSome?
    (fun side =>
      match side.color with
      | some col =>
        if col.ctype == "rgb" then
          match format_color_hex col.rgb with
          | some c => if pyUpper c != "#000000" then some c else none
          | none => none
        else none
      | none => none)

/-- A scalar of the produced YAML data: the value types that occur in a
cell descriptor. -/
inductive YamlVal where
  | str (s : String)
  | int (n : Int)
  | bool (b : Bool)
  | mergeMap (from_to : String)
deriving DecidableEq, Repr

/-- The placeholder sentinel text (app.py line 149). -/
def placeholderSentinel : String := "return \"<placeholder>\""

/-- A cell descriptor: the Python dict `cell_obj` in insertion order. -/
abbrev CellObj := List (String × YamlVal)

/-- One entry of `all_rows_data`: a blank row is `[]`, otherwise one
optional descriptor per emitted column. -/
abbrev Row := List (Option CellObj)

/-- Python `f"{value}"` on a descriptor scalar. -/
def pyShow : YamlVal → String
  | YamlVal.str s => s
  | YamlVal.int n => toString n
  | YamlVal.bool b => if b then "True" else "False"
  | YamlVal.mergeMap ft => "\x7b'from_to': '" ++ ft ++ "'\x7d"

/-- The coercion of a cell value into a descriptor scalar (app.py
line 151 stores the raw value, type-preserved). -/
def yamlOfCellValue : CellValue → YamlVal
  | CellValue.text s => YamlVal.str s
  | CellValue.num n => YamlVal.int n
  | CellValue.bool b => YamlVal.bool b

/-- The Logo warning message (app.py lines 145-146). -/
def logoWarning (content below_coord logo_coord : String) : String :=
  "**Logo Warning:** Data '" ++ content ++ "' in cell " ++ below_coord
    ++ " may be obscured by the Logo in " ++ logo_coord ++ "."

/-- Value/type rules of the descriptor builder (app.py lines 138-151),
returning the key/value pairs added and the warnings recorded. -/
def valueRules (s : Sheet) (r c : Nat) (cell : Cell) : CellObj × List String :=
  match cell.value with
  | none => ([], [])
  | some v =>
    if pyStrip (pyStr v) == "<Logo>" then
      let cell_below := s.cellAt (r + 1) c
      ([("type", YamlVal.str "logo"), ("value", YamlVal.bool true)],
       match cell_below.value with
       | some bv =>
         if bv.truthy then
           [logoWarning (pyStr bv) (coordStr (r + 1) c) (coordStr r c)]
         else []
       | none => [])
    else if pyStrip (pyStr v) == "<placeholder>" then
      ([("type", YamlVal.str "expert"), ("value", YamlVal.str placeholderSentinel)], [])
    else
      ([("value", yamlOfCellValue v)], [])

/-- Style rule for `bold` (app.py line 154). -/
def boldPart (cell : Cell) : CellObj :=
  if cell.font.bold then [("bold", YamlVal.bool true)] else []

/-- Style rule for `font_name` (app.py line 155); `cell.font.name` must be
truthy and not (case-insensitively) "calibri". -/
def fontNamePart (cell : Cell) : CellObj :=
  match cell.font.name with
  | some nm =>
    if nm != "" && pyLower nm != "calibri" then [("font_name", YamlVal.str (pyLower nm))] else []
  | none => []

/-- Style rule for `font_size` (app.py line 156); the size must be truthy
and not 11. -/
def fontSizePart (cell : Cell) : CellObj :=
  match cell.font.size with
  | some sz => if sz != 0 && sz != 11 then [("font_size", YamlVal.int sz)] else []
  | none => []

/-- Style rule for `font_color` (app.py lines 158-161). -/
def fontColorPart (cell : Cell) : CellObj :=
  match cell.font.color with
  | some col =>
    if col.ctype == "rgb" then
      match format_color_hex col.rgb with
      | some fc => if pyUpper fc != "#000000" then [("font_color", YamlVal.str fc)] else []
      | none => []
    else []
  | none => []

/-- Style rule for `bg_color` (app.py lines 163-166). -/
def bgColorPart (cell : Cell) : CellObj :=
  if cell.fill.fill_type == some "solid" && cell.fill.start_color.ctype == "rgb" then
    match format_color_hex cell.fill.start_color.rgb with
    | some bg => if pyUpper bg != "#FFFFFF" then [("bg_color", YamlVal.str bg)] else []
    | none => []
  else []

/-- Style rule for `align` (app.py lines 168-169). -/
def alignPart (cell : Cell) : CellObj :=
  match cell.alignment.horizontal with
  | some h => if h != "" && h != "left" then [("align", YamlVal.str h)] else []
  | none => []

/-- Style rule for `valign` (app.py lines 170-171); "center" is renamed to
"vcenter". -/
def valignPart (cell : Cell) : CellObj :=
  match cell.alignment.vertical with
  | some v =>
    if v != "" && v != "bottom" then
      [("valign", YamlVal.str (if v == "center" then "vcenter" else v))]
    else []
  | none => []

/-- Style rule for `border` and `border_color` (app.py lines 173-178). -/
def borderPart (cell : Cell) : CellObj :=
  if has_border cell then
    ("border", YamlVal.int 1) ::
      (match get_border_color cell with
       | some bc => [("border_color", YamlVal.str bc)]
       | none => [])
  else []

/-- All style rules in source order (app.py lines 153-178). -/
def styleRules (cell : Cell) : CellObj :=
  boldPart cell ++ fontNamePart cell ++ fontSizePart cell ++ fontColorPart cell
    ++ bgColorPart cell ++ alignPart cell ++ valignPart cell ++ borderPart cell

/-- The `merge` key (app.py lines 135-136), present exactly for merge
leaders. -/
def mergeKeyPart : Option MergedRange → CellObj
  | some m => [("merge", YamlVal.mergeMap m.coordString)]
  | none => []

/-- Descriptor construction for a non-follower cell (app.py lines 133-183):
merge key, then value/type rules, then style rules; an empty dict
collapses to `none`. -/
def buildCellObj (s : Sheet) (r c : Nat) (mr : Option MergedRange) :
    Option CellObj × List String :=
  let cell := s.cellAt r c
  let vp := valueRules s r c cell
  let obj := mergeKeyPart mr ++ vp.1 ++ (if cell.has_style then styleRules cell else [])
  ((if obj.isEmpty then none else some obj), vp.2)

/-- Per-cell translation (app.py lines 122-183): merge-followers are
suppressed except for the border projection from the range's leader
cell; all other cells get the full descriptor build. -/
def descriptorAndWarnings (s : Sheet) (r c : Nat) : Option CellObj × List String :=
  match get_merged_range_obj s r c with
  | some m =>
    if (r, c) ≠ (m.min_row, m.min_col) then
      ((if has_border (s.cellAt m.min_row m.min_col) then
          some [("border", YamlVal.int 1)]
        else none), [])
    else buildCellObj s r c (some m)
  | none => buildCellObj s r c none

/-- Whether the cell sits inside some merged range without being its
anchor, i.e. takes the follower branch at app.py line 125. -/
def isMergeFollower (s : Sheet) (r c : Nat) : Bool :=
  match get_merged_range_obj s r c with
  | some m => decide ((r, c) ≠ (m.min_row, m.min_col))
  | none => false

/-- Whether a cell counts toward the effective width (app.py line 111). -/
def cellBearing (cell : Cell) : Bool := cell.value.isSome || cell.has_style

/-- `max_col` computation (app.py lines 107-112): widest 1-based column
index touched by a valued or styled cell. -/
def computeMaxCol (s : Sheet) : Nat :=
  s.rows.foldl
    (fun acc row =>
      row.enum.foldl (fun a p => if cellBearing p.2 then Nat.max a (p.1 + 1) else a) acc)
    0

/-- The column count actually iterated (app.py line 114): openpyxl's
`iter_rows(max_col=0)` falls back to the sheet's natural width. -/
def iterWidth (s : Sheet) : Nat :=
  let mc := computeMaxCol s
  if mc == 0 then (s.rows.map List.length).foldl Nat.max 0 else mc

/-- The blank-row test (app.py line 116) over the first `w` columns. -/
def is_empty_row (s : Sheet) (r w : Nat) : Bool :=
  (List.range w).all
    (fun j => (s.cellAt r (j + 1)).value.isNone && !(s.cellAt r (j + 1)).has_style)

/-- Translation of one sheet row (app.py lines 114-185). -/
def processRow (s : Sheet) (w r : Nat) : Row × List String :=
  if is_empty_row s r w then ([], [])
  else
    let results := (List.range w).map (fun j => descriptorAndWarnings s r (j + 1))
    (results.map Prod.fst, (results.map Prod.snd).flatten)

/-- Translation of the whole grid into `all_rows_data` plus the collected
warnings (app.py lines 101-185). -/
def translate_rows (s : Sheet) : List Row × List String :=
  let w := iterWidth s
  let rowsR := (List.range s.rows.length).map (fun i => processRow s w (i + 1))
  (rowsR.map Prod.fst, (rowsR.map Prod.snd).flatten)

/-- The line emitted both for a blank row and as the unconditional trailing
marker (app.py lines 65 and 90). -/
def emptyRowLine : String := "            - []"

/-- Rendering of one key/value pair of a descriptor (app.py lines 75-88).
The `merge` key always holds the nested `from_to` mapping; `type` values
render bare; the placeholder sentinel under `value` renders single-quoted
by its dedicated branch; booleans render bare lowercase; numbers render
bare; all other values render single-quoted. -/
def render_kv (k : String) (v : YamlVal) : List String :=
  if k == "merge" then
    match v with
    | YamlVal.mergeMap ft =>
      ["                    merge:",
       "                        from_to: '" ++ ft ++ "'"]
    | _ => []
  else if k == "type" then
    ["                    " ++ k ++ ": " ++ pyShow v]
  else if k == "value" && v == YamlVal.str placeholderSentinel then
    ["                    " ++ k ++ ": '" ++ pyShow v ++ "'"]
  else
    match v with
    | YamlVal.bool b =>
      ["                    " ++ k ++ ": " ++ (if b then "true" else "false")]
    | YamlVal.int n => ["                    " ++ k ++ ": " ++ toString n]
    | _ => ["                    " ++ k ++ ": '" ++ pyShow v ++ "'"]

/-- Rendering of one cell entry (app.py lines 69-88). -/
def render_cell : Option CellObj → List String
  | none => ["                - null"]
  | some obj => "                -" :: obj.flatMap (fun kv => render_kv kv.1 kv.2)

/-- Rendering of one row entry (app.py lines 63-88). -/
def render_row (row : Row) : List String :=
  if row.isEmpty then [emptyRowLine]
  else "            -" :: row.flatMap render_cell

/-- The lines of `build_yaml_string` (app.py lines 57-91): fixed header,
the rendered rows, then the unconditional trailing blank-row marker. -/
def build_yaml_lines (all_rows_data : List Row) : List String :=
  (["template:", "    format:", "        page_header:"] ++ all_rows_data.flatMap render_row)
    ++ [emptyRowLine]

/-- `build_yaml_string` (app.py lines 57-91). -/
def build_yaml_string (all_rows_data : List Row) : String :=
  String.intercalate "\n" (build_yaml_lines all_rows_data)

/-- `generate_yaml_from_file` (app.py lines 96-190) on an already decoded
sheet: the YAML text and the warnings. -/
def generate_yaml_from_file (s : Sheet) : String × List String :=
  let tr := translate_rows s
  (build_yaml_string tr.1, tr.2)

/-- `generate_yaml_from_file` including the decoding step (app.py lines
104-105): a failure of `load_workbook`, or a missing active sheet,
propagates as the untouched error with no document and no warnings. -/
def generate_yaml_from_load (input : Except String Sheet) :
    Except String (String × List String) :=
  match input with
  | Except.error e => Except.error e
  | Except.ok s => Except.ok (generate_yaml_from_file s)

/-! ### Concrete sheets used as witnesses and counterexamples -/

/-- A cell holding just a text value. -/
def mkTextCell (s : String) : Cell := { emptyCell with value := some (CellValue.text s) }

/-- One-cell sheet whose only cell holds the text `<placeholder>`. -/
def sheetPH : Sheet := { rows := [[mkTextCell "<placeholder>"]], merged := [] }

/-- Sheet with a `<Logo>` cell above a cell holding the number 0: the value
below is non-absent but falsy. -/
def sheetLogoZero : Sheet :=
  { rows := [[mkTextCell "<Logo>"], [{ emptyCell with value := some (CellValue.num 0) }]],
    merged := [] }

/-- Sheet with a `<Logo>` cell above a cell holding non-empty text. -/
def sheetLogoWarn : Sheet :=
  { rows := [[mkTextCell "<Logo>"], [mkTextCell "data"]], merged := [] }

/-- Sheet with a `<Logo>` cell in its last row. -/
def sheetLogoLast : Sheet := { rows := [[mkTextCell "<Logo>"]], merged := [] }

/-- A valueless cell whose only set style attribute is a left border. -/
def borderLeaderCell : Cell :=
  { emptyCell with
      has_style := true
      border := { left := { style := some "thin", color := none },
                  right := noSide, top := noSide, bottom := noSide } }

/-- The merged range A1:B1. -/
def mrC5 : MergedRange := { min_row := 1, min_col := 1, max_row := 1, max_col := 2 }

/-- Sheet with A1:B1 merged, a bordered leader at A1, an otherwise default
follower at B1, and a text cell at B2 keeping column 2 in range. -/
def sheetC5 : Sheet :=
  { rows := [[borderLeaderCell, emptyCell], [emptyCell, mkTextCell "x"]], merged := [mrC5] }

/-- A valueless cell whose every style attribute is explicitly set to its
spreadsheet default. -/
def explicitDefaultCell : Cell :=
  { value := none
    has_style := true
    font := { bold := false, name := some "Calibri", size := some 11,
              color := some { ctype := "rgb", rgb := some "FF000000" } }
    fill := { fill_type := some "solid",
              start_color := { ctype := "rgb", rgb := some "FFFFFFFF" } }
    alignment := { horizontal := some "left", vertical := some "bottom" }
    border := { left := noSide, right := noSide, top := noSide, bottom := noSide } }

/-- One-cell sheet holding `explicitDefaultCell`. -/
def sheetDefaults : Sheet := { rows := [[explicitDefaultCell]], merged := [] }

/-- A valueless cell with a solid red fill. -/
def redFillCell : Cell :=
  { emptyCell with
      has_style := true
      fill := { fill_type := some "solid",
                start_color := { ctype := "rgb", rgb := some "FFFF0000" } } }

/-- One-cell sheet holding `redFillCell`. -/
def sheetRed : Sheet := { rows := [[redFillCell]], merged := [] }

/-- The spec's list of spreadsheet defaults (section 4.2): not bold, font
name "calibri" case-insensitively, size 11, font colour `FF000000`, fill
absent or solid white `FFFFFFFF`, horizontal "left", vertical "bottom",
no border sides set.  Each attribute is either unset or explicitly set to
its default value. -/
def isDefaultStyle (cell : Cell) : Bool :=
  (!cell.font.bold)
    && (cell.font.name == none || cell.font.name.map pyLower == some "calibri")
    && (cell.font.size == none || cell.font.size == some 11)
    && (cell.font.color == none
          || cell.font.color == some { ctype := "rgb", rgb := some "FF000000" })
    && (cell.fill.fill_type == none
          || (cell.fill.fill_type == some "solid"
                && cell.fill.start_color == { ctype := "rgb", rgb := some "FFFFFFFF" }))
    && (cell.alignment.horizontal == none || cell.alignment.horizontal == some "left")
    && (cell.alignment.vertical == none || cell.alignment.vertical == some "bottom")
    && (cell.border.left.style == none) && (cell.border.right.style == none)
    && (cell.border.top.style == none) && (cell.border.bottom.style == none)

/-! ### Key inventory of the descriptor parts -/

theorem mem_boldPart {cell : Cell} {k : String} {v : YamlVal}
    (h : (k, v) ∈ boldPart cell) : k = "bold" := by
  unfold boldPart at h
  repeat' split at h
  all_goals simp_all

theorem mem_fontNamePart {cell : Cell} {k : String} {v : YamlVal}
    (h : (k, v) ∈ fontNamePart cell) : k = "font_name" := by
  unfold fontNamePart at h
  repeat' split at h
  all_goals simp_all

theorem mem_fontSizePart {cell : Cell} {k : String} {v : YamlVal}
    (h : (k, v) ∈ fontSizePart cell) : k = "font_size" := by
  unfold fontSizePart at h
  repeat' split at h
  all_goals simp_all

theorem mem_fontColorPart {cell : Cell} {k : String} {v : YamlVal}
    (h : (k, v) ∈ fontColorPart cell) : k = "font_color" := by
  unfold fontColorPart at h
  repeat' split at h
  all_goals simp_all

theorem mem_bgColorPart {cell : Cell} {k : String} {v : YamlVal}
    (h : (k, v) ∈ bgColorPart cell) :
    k = "bg_color" ∧ cell.fill.fill_type = some "solid"
      ∧ cell.fill.start_color.ctype = "rgb" := by
  unfold bgColorPart at h
  repeat' split at h
  all_goals simp_all

theorem mem_alignPart {cell : Cell} {k : String} {v : YamlVal}
    (h : (k, v) ∈ alignPart cell) : k = "align" := by
  unfold alignPart at h
  repeat' split at h
  all_goals simp_all

theorem mem_valignPart {cell : Cell} {k : String} {v : YamlVal}
    (h : (k, v) ∈ valignPart cell) : k = "valign" := by
  unfold valignPart at h
  repeat' split at h
  all_goals simp_all

theorem mem_borderPart {cell : Cell} {k : String} {v : YamlVal}
    (h : (k, v) ∈ borderPart cell) : k = "border" ∨ k = "border_color" := by
  unfold borderPart at h
  repeat' split at h
  all_goals simp_all
  all_goals tauto

theorem mem_mergeKeyPart {mr : Option MergedRange} {k : String} {v : YamlVal}
    (h : (k, v) ∈ mergeKeyPart mr) : k = "merge" := by
  cases mr <;> simp_all [mergeKeyPart]

theorem mem_valueRules {s : Sheet} {r c : Nat} {cell : Cell} {k : String} {v : YamlVal}
    (h : (k, v) ∈ (valueRules s r c cell).1) : k = "type" ∨ k = "value" := by
  unfold valueRules at h
  repeat' split at h
  all_goals simp_all
  all_goals tauto

theorem mem_styleRules {cell : Cell} {k : String} {v : YamlVal}
    (h : (k, v) ∈ styleRules cell) :
    (k, v) ∈ boldPart cell ∨ (k, v) ∈ fontNamePart cell ∨ (k, v) ∈ fontSizePart cell
      ∨ (k, v) ∈ fontColorPart cell ∨ (k, v) ∈ bgColorPart cell ∨ (k, v) ∈ alignPart cell
      ∨ (k, v) ∈ valignPart cell ∨ (k, v) ∈ borderPart cell := by
  simpa [styleRules, List.mem_append, or_assoc] using h

/-! ### Structure of the per-cell translation -/

theorem descriptorAndWarnings_of_not_follower {s : Sheet} {r c : Nat}
    (hf : isMergeFollower s r c = false) :
    descriptorAndWarnings s r c = buildCellObj s r c (get_merged_range_obj s r c) := by
  unfold isMergeFollower at hf
  unfold descriptorAndWarnings
  cases hm : get_merged_range_obj s r c with
  | none => rfl
  | some m =>
    rw [hm] at hf
    simp only [decide_eq_false_iff_not, not_not] at hf
    simp [hf]

theorem buildCellObj_of_valueRules {s : Sheet} {r c : Nat} {m : Option MergedRange}
    {ps : CellObj} {w : List String}
    (hvr : valueRules s r c (s.cellAt r c) = (ps, w)) (hne : ps ≠ []) :
    ∃ obj, buildCellObj s r c m = (some obj, w) ∧ ∀ p ∈ ps, p ∈ obj := by
  simp only [buildCellObj]
  rw [hvr]
  dsimp only
  refine ⟨mergeKeyPart m ++ ps
      ++ (if (s.cellAt r c).has_style then styleRules (s.cellAt r c) else []), ?_, ?_⟩
  · have hemp : (mergeKeyPart m ++ ps
        ++ (if (s.cellAt r c).has_style then styleRules (s.cellAt r c) else [])).isEmpty
          = false := by
      cases ps with
      | nil => exact absurd rfl hne
      | cons a l => simp [List.isEmpty_iff]
    rw [if_neg (by rw [hemp]; exact Bool.false_ne_true)]
  · intro p hp
    simp [List.mem_append, hp]

theorem valueRules_placeholder {s : Sheet} {r c : Nat} {cell : Cell} {v : CellValue}
    (hv : cell.value = some v) (ht : pyStrip (pyStr v) = "<placeholder>") :
    valueRules s r c cell
      = ([("type", YamlVal.str "expert"), ("value", YamlVal.str placeholderSentinel)], []) := by
  simp only [valueRules, hv]
  rw [ht]
  simp

theorem valueRules_logo {s : Sheet} {r c : Nat} {cell : Cell} {v : CellValue}
    (hv : cell.value = some v) (ht : pyStrip (pyStr v) = "<Logo>") :
    valueRules s r c cell
      = ([("type", YamlVal.str "logo"), ("value", YamlVal.bool true)],
         match (s.cellAt (r + 1) c).value with
         | some bv =>
           if bv.truthy then
             [logoWarning (pyStr bv) (coordStr (r + 1) c) (coordStr r c)]
           else []
         | none => []) := by
  simp only [valueRules, hv]
  rw [ht]
  simp

/-! ### Default suppression -/

theorem boldPart_nil {cell : Cell} (h : cell.font.bold = false) : boldPart cell = [] := by
  simp [boldPart, h]

theorem fontNamePart_nil {cell : Cell}
    (h : cell.font.name = none ∨ cell.font.name.map pyLower = some "calibri") :
    fontNamePart cell = [] := by
  unfold fontNamePart
  cases hn : cell.font.name with
  | none => rfl
  | some nm =>
    rcases h with h | h
    · rw [hn] at h; cases h
    · rw [hn] at h
      simp only [Option.map_some'] at h
      simp only [Option.some.injEq] at h
      simp [h]

theorem fontSizePart_nil {cell : Cell}
    (h : cell.font.size = none ∨ cell.font.size = some 11) :
    fontSizePart cell = [] := by
  unfold fontSizePart
  rcases h with h | h <;> simp [h]

theorem fontColorPart_nil {cell : Cell}
    (h : cell.font.color = none
      ∨ cell.font.color = some { ctype := "rgb", rgb := some "FF000000" }) :
    fontColorPart cell = [] := by
  unfold fontColorPart
  rcases h with h | h <;>
    simp [h, show format_color_hex (some "FF000000") = some "#000000" from by decide,
      show (pyUpper "#000000" != "#000000") = false from by decide]

theorem bgColorPart_nil_nofill {cell : Cell} (h : cell.fill.fill_type = none) :
    bgColorPart cell = [] := by
  simp [bgColorPart, h]

theorem bgColorPart_nil_white {cell : Cell}
    (h : cell.fill.start_color = { ctype := "rgb", rgb := some "FFFFFFFF" }) :
    bgColorPart cell = [] := by
  unfold bgColorPart
  split
  · simp [h, show format_color_hex (some "FFFFFFFF") = some "#FFFFFF" from by decide,
      show (pyUpper "#FFFFFF" != "#FFFFFF") = false from by decide]
  · rfl

theorem alignPart_nil {cell : Cell}
    (h : cell.alignment.horizontal = none ∨ cell.alignment.horizontal = some "left") :
    alignPart cell = [] := by
  unfold alignPart
  rcases h with h | h <;> simp [h]

theorem valignPart_nil {cell : Cell}
    (h : cell.alignment.vertical = none ∨ cell.alignment.vertical = some "bottom") :
    valignPart cell = [] := by
  unfold valignPart
  rcases h with h | h <;> simp [h]

theorem borderPart_nil {cell : Cell}
    (h1 : cell.border.left.style = none) (h2 : cell.border.right.style = none)
    (h3 : cell.border.top.style = none) (h4 : cell.border.bottom.style = none) :
    borderPart cell = [] := by
  have hb : has_border cell = false := by simp [has_border, sideSet, h1, h2, h3, h4]
  simp [borderPart, hb]

theorem get_border_color_all_black {cell : Cell}
    (hl : cell.border.left.color = some { ctype := "rgb", rgb := some "FF000000" })
    (hr : cell.border.right.color = some { ctype := "rgb", rgb := some "FF000000" })
    (htp : cell.border.top.color = some { ctype := "rgb", rgb := some "FF000000" })
    (hbt : cell.border.bottom.color = some { ctype := "rgb", rgb := some "FF000000" }) :
    get_border_color cell = none := by
  simp [get_border_color, List.findSome?_cons, hl, hr, htp, hbt,
    show format_color_hex (some "FF000000") = some "#000000" from by decide,
    show pyUpper "#000000" = "#000000" from by decide]

theorem mem_borderPart_color {cell : Cell} {v : YamlVal}
    (h : ("border_color", v) ∈ borderPart cell) :
    ∃ bc, get_border_color cell = some bc := by
  unfold borderPart at h
  repeat' split at h
  all_goals simp_all

theorem styleRules_of_default {cell : Cell} (h : isDefaultStyle cell = true) :
    styleRules cell = [] := by
  unfold isDefaultStyle at h
  simp only [Bool.and_eq_true, Bool.or_eq_true, Bool.not_eq_eq_eq_not, Bool.not_true,
    beq_iff_eq] at h
  obtain ⟨⟨⟨⟨⟨⟨⟨⟨⟨⟨hb, hn⟩, hs⟩, hc⟩, hf⟩, hh⟩, hv⟩, hbl⟩, hbr⟩, hbt⟩, hbb⟩ := h
  unfold styleRules
  rw [boldPart_nil hb, fontNamePart_nil hn, fontSizePart_nil hs, fontColorPart_nil hc,
    alignPart_nil hh, valignPart_nil hv, borderPart_nil hbl hbr hbt hbb]
  rcases hf with hf | ⟨hf1, hf2⟩
  · rw [bgColorPart_nil_nofill hf]
    rfl
  · rw [bgColorPart_nil_white hf2]
    rfl

/-! ### Scalar rendering -/

theorem render_kv_string_quoted {k : String} (s : String)
    (hk1 : k ≠ "merge") (hk2 : k ≠ "type") :
    render_kv k (YamlVal.str s) = ["                    " ++ k ++ ": '" ++ s ++ "'"] := by
  by_cases hk3 : k = "value" <;> by_cases hs : s = placeholderSentinel <;>
    simp [render_kv, hk1, hk2, hk3, hs, pyShow]

/-! ### Claims -/

/-- C1, counterexample: in the document produced for a sheet whose single
cell holds `<placeholder>`, the sentinel value is emitted single-quoted;
the unquoted line the claim requires appears nowhere.  (The dedicated
branch at app.py line 81-82 quotes the sentinel like any other string.) -/
theorem C1_counterexample :
    "                    value: 'return \"<placeholder>\"'"
        ∈ build_yaml_lines (translate_rows sheetPH).1
    ∧ "                    value: return \"<placeholder>\""
        ∉ build_yaml_lines (translate_rows sheetPH).1 := by decide

/-- C1, amended: a non-follower cell whose stripped text is exactly
`<placeholder>` gets `type: expert` and the fixed sentinel value, and the
sentinel is emitted single-quoted (like every other text scalar), not
unquoted. -/
theorem C1_placeholder_descriptor (s : Sheet) (r c : Nat) (v : CellValue)
    (hv : (s.cellAt r c).value = some v)
    (ht : pyStrip (pyStr v) = "<placeholder>")
    (hf : isMergeFollower s r c = false) :
    (∃ obj, (descriptorAndWarnings s r c).1 = some obj
      ∧ ("type", YamlVal.str "expert") ∈ obj
      ∧ ("value", YamlVal.str placeholderSentinel) ∈ obj)
    ∧ (∀ k : String, k ≠ "merge" → k ≠ "type" →
        render_kv k (YamlVal.str placeholderSentinel)
          = ["                    " ++ k ++ ": '" ++ placeholderSentinel ++ "'"]) := by
  constructor
  · rw [descriptorAndWarnings_of_not_follower hf]
    obtain ⟨obj, heq, hmem⟩ :=
      buildCellObj_of_valueRules (m := get_merged_range_obj s r c)
        (valueRules_placeholder hv ht) (by simp)
    exact ⟨obj, by rw [heq], hmem _ (by simp), hmem _ (by simp)⟩
  · intro k hk1 hk2
    exact render_kv_string_quoted placeholderSentinel hk1 hk2

/-- C1, witness: the amended statement instantiated at `sheetPH`. -/
theorem C1_placeholder_descriptor_witness :
    (∃ obj, (descriptorAndWarnings sheetPH 1 1).1 = some obj
      ∧ ("type", YamlVal.str "expert") ∈ obj
      ∧ ("value", YamlVal.str placeholderSentinel) ∈ obj)
    ∧ (∀ k : String, k ≠ "merge" → k ≠ "type" →
        render_kv k (YamlVal.str placeholderSentinel)
          = ["                    " ++ k ++ ": '" ++ placeholderSentinel ++ "'"]) :=
  C1_placeholder_descriptor sheetPH 1 1 (CellValue.text "<placeholder>")
    (by decide) (by decide) (by decide)

/-- C2: for every translated sheet the emitted row-line sequence ends with
the empty-sequence marker, and appending a blank last row to any row data
adds exactly one more marker line before the unconditional trailing one —
no collapsing of consecutive blanks, no omission. -/
theorem C2_trailing_marker :
    (∀ s : Sheet, (build_yaml_lines (translate_rows s).1).getLast? = some emptyRowLine)
    ∧ (∀ rows : List Row,
        build_yaml_lines (rows ++ [[]]) = build_yaml_lines rows ++ [emptyRowLine]) := by
  constructor
  · intro s
    unfold build_yaml_lines
    exact List.getLast?_concat _
  · intro rows
    unfold build_yaml_lines
    rw [List.flatMap_append]
    simp [render_row, List.append_assoc]

/-- C3, counterexample: in `sheetLogoZero` the cell below the `<Logo>` cell
holds the non-absent value 0, yet no Logo Warning is recorded, because
app.py line 144 tests Python truthiness rather than non-absence. -/
theorem C3_counterexample :
    (sheetLogoZero.cellAt 1 1).value = some (CellValue.text "<Logo>")
    ∧ (sheetLogoZero.cellAt 2 1).value = some (CellValue.num 0)
    ∧ (generate_yaml_from_file sheetLogoZero).2 = [] := by decide

/-- C3, amended: a non-follower cell whose stripped text is exactly
`<Logo>` gets `type: logo` and boolean value `true`, and the Logo Warning
(naming the obscured cell's content and coordinate and the logo cell's
coordinate) is recorded if and only if the cell immediately below has a
truthy value — non-absent and not zero, empty text, or `False`. -/
theorem C3_logo_descriptor (s : Sheet) (r c : Nat) (v : CellValue)
    (hv : (s.cellAt r c).value = some v)
    (ht : pyStrip (pyStr v) = "<Logo>")
    (hf : isMergeFollower s r c = false) :
    (∃ obj, (descriptorAndWarnings s r c).1 = some obj
      ∧ ("type", YamlVal.str "logo") ∈ obj ∧ ("value", YamlVal.bool true) ∈ obj)
    ∧ (descriptorAndWarnings s r c).2 =
        (match (s.cellAt (r + 1) c).value with
         | some bv =>
           if bv.truthy then
             [logoWarning (pyStr bv) (coordStr (r + 1) c) (coordStr r c)]
           else []
         | none => []) := by
  rw [descriptorAndWarnings_of_not_follower hf]
  obtain ⟨obj, heq, hmem⟩ :=
    buildCellObj_of_valueRules (m := get_merged_range_obj s r c)
      (valueRules_logo hv ht) (by simp)
  refine ⟨⟨obj, by rw [heq], hmem _ (by simp), hmem _ (by simp)⟩, ?_⟩
  rw [heq]

/-- C3, witness: the amended statement instantiated at `sheetLogoWarn`,
where the cell below holds truthy text and the warning is produced. -/
theorem C3_logo_descriptor_witness :
    (∃ obj, (descriptorAndWarnings sheetLogoWarn 1 1).1 = some obj
      ∧ ("type", YamlVal.str "logo") ∈ obj ∧ ("value", YamlVal.bool true) ∈ obj)
    ∧ (descriptorAndWarnings sheetLogoWarn 1 1).2 =
        (match (sheetLogoWarn.cellAt 2 1).value with
         | some bv =>
           if bv.truthy then
             [logoWarning (pyStr bv) (coordStr 2 1) (coordStr 1 1)]
           else []
         | none => []) :=
  C3_logo_descriptor sheetLogoWarn 1 1 (CellValue.text "<Logo>")
    (by decide) (by decide) (by decide)

/-- C4: a merge-follower cell's descriptor is either null, or exactly the
single-key mapping `border: 1`, the latter precisely when the range's
leader cell has some border side set; it never carries value or other
style keys of its own. -/
theorem C4_merge_follower (s : Sheet) (r c : Nat) (m : MergedRange)
    (hm : get_merged_range_obj s r c = some m)
    (hne : (r, c) ≠ (m.min_row, m.min_col)) :
    ((descriptorAndWarnings s r c).1 = none
        ∧ has_border (s.cellAt m.min_row m.min_col) = false)
    ∨ ((descriptorAndWarnings s r c).1 = some [("border", YamlVal.int 1)]
        ∧ has_border (s.cellAt m.min_row m.min_col) = true) := by
  unfold descriptorAndWarnings
  rw [hm]
  dsimp only
  rw [if_pos hne]
  cases hb : has_border (s.cellAt m.min_row m.min_col) <;> simp [hb]

/-- C4, witness: the follower B1 of the merged range A1:B1 in `sheetC5`,
whose leader carries a left border. -/
theorem C4_merge_follower_witness :
    ((descriptorAndWarnings sheetC5 1 2).1 = none
        ∧ has_border (sheetC5.cellAt mrC5.min_row mrC5.min_col) = false)
    ∨ ((descriptorAndWarnings sheetC5 1 2).1 = some [("border", YamlVal.int 1)]
        ∧ has_border (sheetC5.cellAt mrC5.min_row mrC5.min_col) = true) :=
  C4_merge_follower sheetC5 1 2 mrC5 (by decide) (by decide)

/-- C5, counterexample: B1 in `sheetC5` has absent value, an all-default
style, and no merge leadership (it is a follower of A1:B1), yet its
descriptor is `border: 1`, not null, because the bordered leader projects
its border (app.py lines 125-131). -/
theorem C5_counterexample :
    sheetC5.merged = [mrC5]
    ∧ (1, 2) ≠ (mrC5.min_row, mrC5.min_col)
    ∧ (sheetC5.cellAt 1 2).value = none
    ∧ isDefaultStyle (sheetC5.cellAt 1 2) = true
    ∧ (descriptorAndWarnings sheetC5 1 2).1 = some [("border", YamlVal.int 1)] := by decide

/-- C5, amended: a cell with absent value, no merge membership at all, and
a style in which every attribute equals its spreadsheet default produces
the null descriptor, no matter how many style fields are explicitly set
to those default values. -/
theorem C5_default_null (s : Sheet) (r c : Nat)
    (hv : (s.cellAt r c).value = none)
    (hm : get_merged_range_obj s r c = none)
    (hd : isDefaultStyle (s.cellAt r c) = true) :
    (descriptorAndWarnings s r c).1 = none := by
  unfold descriptorAndWarnings
  rw [hm]
  dsimp only
  simp only [buildCellObj]
  have hvr : valueRules s r c (s.cellAt r c) = ([], []) := by
    simp [valueRules, hv]
  rw [hvr]
  dsimp only
  rw [styleRules_of_default hd]
  simp [mergeKeyPart]

/-- C5, witness: the amended statement instantiated at `sheetDefaults`,
whose only cell has every style attribute explicitly set to its default. -/
theorem C5_default_null_witness :
    (sheetDefaults.cellAt 1 1).value = none
    ∧ get_merged_range_obj sheetDefaults 1 1 = none
    ∧ isDefaultStyle (sheetDefaults.cellAt 1 1) = true
    ∧ (descriptorAndWarnings sheetDefaults 1 1).1 = none :=
  ⟨by decide, by decide, by decide,
    C5_default_null sheetDefaults 1 1 (by decide) (by decide) (by decide)⟩

/-- C6: colour conversion drops the leading alpha pair of any 8-character
ARGB code ("FFAABBCC" becomes "#AABBCC"), and an ARGB equal to the
attribute's default — FF000000 for font and border colour, FFFFFFFF for
fill — produces no corresponding colour key in the style rules. -/
theorem C6_color_round_trip :
    (∀ str8 : String, str8.length = 8 →
        format_color_hex (some str8) = some ("#" ++ str8.drop 2))
    ∧ format_color_hex (some "FFAABBCC") = some "#AABBCC"
    ∧ (∀ cell : Cell,
        cell.font.color = some { ctype := "rgb", rgb := some "FF000000" } →
        "font_color" ∉ (styleRules cell).map Prod.fst)
    ∧ (∀ cell : Cell,
        cell.fill.start_color = { ctype := "rgb", rgb := some "FFFFFFFF" } →
        "bg_color" ∉ (styleRules cell).map Prod.fst)
    ∧ (∀ cell : Cell,
        cell.border.left.color = some { ctype := "rgb", rgb := some "FF000000" } →
        cell.border.right.color = some { ctype := "rgb", rgb := some "FF000000" } →
        cell.border.top.color = some { ctype := "rgb", rgb := some "FF000000" } →
        cell.border.bottom.color = some { ctype := "rgb", rgb := some "FF000000" } →
        "border_color" ∉ (styleRules cell).map Prod.fst) := by
  refine ⟨?_, by decide, ?_, ?_, ?_⟩
  · intro str8 h
    simp [format_color_hex, h]
  · intro cell hc hmem
    rw [List.mem_map] at hmem
    obtain ⟨⟨k, v⟩, hkv, hk⟩ := hmem
    dsimp at hk
    subst hk
    rcases mem_styleRules hkv with h | h | h | h | h | h | h | h
    · exact absurd (mem_boldPart h) (by decide)
    · exact absurd (mem_fontNamePart h) (by decide)
    · exact absurd (mem_fontSizePart h) (by decide)
    · rw [fontColorPart_nil (Or.inr hc)] at h
      cases h
    · exact absurd (mem_bgColorPart h).1 (by decide)
    · exact absurd (mem_alignPart h) (by decide)
    · exact absurd (mem_valignPart h) (by decide)
    · rcases mem_borderPart h with h' | h' <;> exact absurd h' (by decide)
  · intro cell hc hmem
    rw [List.mem_map] at hmem
    obtain ⟨⟨k, v⟩, hkv, hk⟩ := hmem
    dsimp at hk
    subst hk
    rcases mem_styleRules hkv with h | h | h | h | h | h | h | h
    · exact absurd (mem_boldPart h) (by decide)
    · exact absurd (mem_fontNamePart h) (by decide)
    · exact absurd (mem_fontSizePart h) (by decide)
    · exact absurd (mem_fontColorPart h) (by decide)
    · rw [bgColorPart_nil_white hc] at h
      cases h
    · exact absurd (mem_alignPart h) (by decide)
    · exact absurd (mem_valignPart h) (by decide)
    · rcases mem_borderPart h with h' | h' <;> exact absurd h' (by decide)
  · intro cell hl hr htp hbt hmem
    rw [List.mem_map] at hmem
    obtain ⟨⟨k, v⟩, hkv, hk⟩ := hmem
    dsimp at hk
    subst hk
    rcases mem_styleRules hkv with h | h | h | h | h | h | h | h
    · exact absurd (mem_boldPart h) (by decide)
    · exact absurd (mem_fontNamePart h) (by decide)
    · exact absurd (mem_fontSizePart h) (by decide)
    · exact absurd (mem_fontColorPart h) (by decide)
    · exact absurd (mem_bgColorPart h).1 (by decide)
    · exact absurd (mem_alignPart h) (by decide)
    · exact absurd (mem_valignPart h) (by decide)
    · obtain ⟨bc, hbc⟩ := mem_borderPart_color h
      rw [get_border_color_all_black hl hr htp hbt] at hbc
      cases hbc

/-- A border side with a thin style and the default black RGB colour. -/
def blackSide : Side :=
  { style := some "thin", color := some { ctype := "rgb", rgb := some "FF000000" } }

/-- A cell whose four border sides are set with the default black colour. -/
def blackBorderCell : Cell :=
  { emptyCell with
      has_style := true
      border := { left := blackSide, right := blackSide, top := blackSide,
                  bottom := blackSide } }

/-- C6, witness: the colour statements instantiated at concrete cells. -/
theorem C6_color_round_trip_witness :
    format_color_hex (some "FFAABBCC") = some ("#" ++ ("FFAABBCC" : String).drop 2)
    ∧ "font_color" ∉ (styleRules explicitDefaultCell).map Prod.fst
    ∧ "bg_color" ∉ (styleRules explicitDefaultCell).map Prod.fst
    ∧ "border_color" ∉ (styleRules blackBorderCell).map Prod.fst :=
  ⟨C6_color_round_trip.1 "FFAABBCC" (by decide),
   C6_color_round_trip.2.2.1 explicitDefaultCell (by decide),
   C6_color_round_trip.2.2.2.1 explicitDefaultCell (by decide),
   C6_color_round_trip.2.2.2.2 blackBorderCell (by decide) (by decide) (by decide)
     (by decide)⟩

/-- C7, counterexample: the document produced for `sheetLogoZero` renders
the text scalar "logo" (a text scalar different from the placeholder
sentinel) bare under the `type` key, not single-quoted (app.py line 80). -/
theorem C7_counterexample :
    "                    type: logo" ∈ build_yaml_lines (translate_rows sheetLogoZero).1
    ∧ "                    type: 'logo'" ∉ build_yaml_lines (translate_rows sheetLogoZero).1
    ∧ "logo" ≠ placeholderSentinel := by decide

/-- C7, amended: boolean scalars render bare lowercase true/false, numeric
scalars render bare, and text scalars render single-quoted — including
the placeholder sentinel — except values of the `type` key, which render
bare. -/
theorem C7_scalar_rendering :
    ∀ (k : String) (b : Bool) (n : Int) (txt : String), k ≠ "merge" → k ≠ "type" →
      render_kv k (YamlVal.bool b)
          = ["                    " ++ k ++ ": " ++ (if b then "true" else "false")]
      ∧ render_kv k (YamlVal.int n) = ["                    " ++ k ++ ": " ++ toString n]
      ∧ render_kv k (YamlVal.str txt) = ["                    " ++ k ++ ": '" ++ txt ++ "'"]
      ∧ render_kv "type" (YamlVal.str txt) = ["                    type: " ++ txt] := by
  intro k b n txt hk1 hk2
  refine ⟨?_, ?_, render_kv_string_quoted txt hk1 hk2, ?_⟩
  · simp [render_kv, hk1, hk2]
  · simp [render_kv, hk1, hk2]
  · simp [render_kv, pyShow,
      show (("type" : String) == "merge") = false from by decide,
      show (("type" : String) == "type") = true from by decide]

/-- C7, witness: the amended statement instantiated at the key `value`
with concrete scalars, and at the `type` key with the text "logo". -/
theorem C7_scalar_rendering_witness :
    render_kv "value" (YamlVal.bool true) = ["                    value: true"]
    ∧ render_kv "value" (YamlVal.int 7) = ["                    value: 7"]
    ∧ render_kv "value" (YamlVal.str "Total") = ["                    value: 'Total'"]
    ∧ render_kv "type" (YamlVal.str "logo") = ["                    type: logo"] := by
  obtain ⟨h1, h2, h3, _⟩ := C7_scalar_rendering "value" true 7 "Total" (by decide) (by decide)
  obtain ⟨_, _, _, h4⟩ := C7_scalar_rendering "value" true 7 "logo" (by decide) (by decide)
  exact ⟨h1.trans (by decide), h2.trans (by decide), h3.trans (by decide),
    h4.trans (by decide)⟩

/-- C8: a failure of the decoding step (unreadable workbook or missing
active sheet, app.py lines 104-105) propagates as the untouched error:
no document text and no warnings are produced. -/
theorem C8_fatal_error_propagates :
    ∀ e : String, generate_yaml_from_load (Except.error e) = Except.error e := by
  intro e
  rfl

/-- Every entry of a non-null built descriptor comes from the merge key,
the value rules, or the style rules of its cell. -/
theorem buildCellObj_some_sub {s : Sheet} {r c : Nat} {mr : Option MergedRange} {obj : CellObj}
    (h1 : (buildCellObj s r c mr).1 = some obj) :
    ∀ p ∈ obj, p ∈ mergeKeyPart mr ∨ p ∈ (valueRules s r c (s.cellAt r c)).1
      ∨ p ∈ styleRules (s.cellAt r c) := by
  intro p hp
  simp only [buildCellObj] at h1
  repeat' split at h1
  all_goals try cases h1
  all_goals simp only [List.mem_append, List.not_mem_nil, or_false] at hp
  all_goals tauto

/-- A `bg_color` key in a built descriptor forces a solid direct-RGB fill
on the cell. -/
theorem bg_key_from_buildCellObj {s : Sheet} {r c : Nat} {mr : Option MergedRange}
    {obj : CellObj} {v : YamlVal}
    (h1 : (buildCellObj s r c mr).1 = some obj) (hkv : ("bg_color", v) ∈ obj) :
    (s.cellAt r c).fill.fill_type = some "solid"
      ∧ (s.cellAt r c).fill.start_color.ctype = "rgb" := by
  rcases buildCellObj_some_sub h1 _ hkv with h | h | h
  · exact absurd (mem_mergeKeyPart h) (by decide)
  · rcases mem_valueRules h with h2 | h2 <;> exact absurd h2 (by decide)
  · rcases mem_styleRules h with h2 | h2 | h2 | h2 | h2 | h2 | h2 | h2
    · exact absurd (mem_boldPart h2) (by decide)
    · exact absurd (mem_fontNamePart h2) (by decide)
    · exact absurd (mem_fontSizePart h2) (by decide)
    · exact absurd (mem_fontColorPart h2) (by decide)
    · exact ⟨(mem_bgColorPart h2).2.1, (mem_bgColorPart h2).2.2⟩
    · exact absurd (mem_alignPart h2) (by decide)
    · exact absurd (mem_valignPart h2) (by decide)
    · rcases mem_borderPart h2 with h3 | h3 <;> exact absurd h3 (by decide)

/-- C9: a cell descriptor carries a `bg_color` key only when the cell's
fill type is exactly "solid" and its fill start colour is a direct-RGB
encoding; in particular non-solid fills never emit `bg_color`. -/
theorem C9_bg_color_solid_only (s : Sheet) (r c : Nat) (obj : CellObj)
    (h1 : (descriptorAndWarnings s r c).1 = some obj)
    (h2 : "bg_color" ∈ obj.map Prod.fst) :
    (s.cellAt r c).fill.fill_type = some "solid"
      ∧ (s.cellAt r c).fill.start_color.ctype = "rgb" := by
  rw [List.mem_map] at h2
  obtain ⟨⟨k, v⟩, hkv, hk⟩ := h2
  dsimp at hk
  subst hk
  unfold descriptorAndWarnings at h1
  cases hm : get_merged_range_obj s r c with
  | some m =>
    rw [hm] at h1
    dsimp only at h1
    by_cases hne : (r, c) ≠ (m.min_row, m.min_col)
    · rw [if_pos hne] at h1
      dsimp only at h1
      split at h1
      · injection h1 with h1
        subst h1
        simp at hkv
      · cases h1
    · rw [if_neg hne] at h1
      exact bg_key_from_buildCellObj h1 hkv
  | none =>
    rw [hm] at h1
    dsimp only at h1
    exact bg_key_from_buildCellObj h1 hkv

/-- C9, witness: the solid red cell of `sheetRed` does emit `bg_color`,
and the theorem recovers its fill facts from that. -/
theorem C9_bg_color_solid_only_witness :
    (sheetRed.cellAt 1 1).fill.fill_type = some "solid"
      ∧ (sheetRed.cellAt 1 1).fill.start_color.ctype = "rgb" :=
  C9_bg_color_solid_only sheetRed 1 1 [("bg_color", YamlVal.str "#FF0000")]
    (by decide) (by decide)

/-- C10: for a `<Logo>` cell in the sheet's last row the lookup of the
cell below is total — the translation yields the logo descriptor and
records no Logo Warning, treating the out-of-grid cell below as having
no value. -/
theorem C10_logo_last_row_total (s : Sheet) (r c : Nat) (v : CellValue)
    (hv : (s.cellAt r c).value = some v)
    (ht : pyStrip (pyStr v) = "<Logo>")
    (hf : isMergeFollower s r c = false)
    (hlast : s.rows.length ≤ r) :
    (descriptorAndWarnings s r c).2 = []
    ∧ ∃ obj, (descriptorAndWarnings s r c).1 = some obj
        ∧ ("type", YamlVal.str "logo") ∈ obj ∧ ("value", YamlVal.bool true) ∈ obj := by
  have hbelow : (s.cellAt (r + 1) c).value = none := by
    unfold Sheet.cellAt
    have hnone : s.rows.get? (r + 1 - 1) = none := by
      rw [Nat.add_sub_cancel]
      exact List.get?_eq_none.mpr hlast
    rw [hnone]
    rfl
  rw [descriptorAndWarnings_of_not_follower hf]
  obtain ⟨obj, heq, hmem⟩ :=
    buildCellObj_of_valueRules (m := get_merged_range_obj s r c)
      (valueRules_logo hv ht) (by simp)
  rw [heq]
  refine ⟨?_, obj, rfl, hmem _ (by simp), hmem _ (by simp)⟩
  rw [hbelow]

/-- C10, witness: the statement instantiated at `sheetLogoLast`, whose
`<Logo>` cell sits in the last (and only) row. -/
theorem C10_logo_last_row_total_witness :
    (descriptorAndWarnings sheetLogoLast 1 1).2 = []
    ∧ ∃ obj, (descriptorAndWarnings sheetLogoLast 1 1).1 = some obj
        ∧ ("type", YamlVal.str "logo") ∈ obj ∧ ("value", YamlVal.bool true) ∈ obj :=
  C10_logo_last_row_total sheetLogoLast 1 1 (CellValue.text "<Logo>")
    (by decide) (by decide) (by decide) (by decide)

end Optiwiz
